import Mathlib

/-!
Shallow embedding of the static-asset HTTP server (src/main.go):
configuration loading, the logging middleware with its response wrapper,
the lifecycle controller's exit-code behaviour, and the (spec-modelled)
static file responder.
-/

/-- A byte of a response body, as a natural number. -/
abbrev Byte := Nat

/-- The fields of an inbound HTTP request that the program reads
(`r.Method`, `r.URL.Path`, `r.RemoteAddr`, `r.UserAgent()`). -/
structure Request where
  method : String
  urlPath : String
  remoteAddr : String
  userAgent : String
deriving Repr, DecidableEq

/-- State of the real `http.ResponseWriter` handed to the middleware by the
transport layer: the status line actually sent (none until set) and the
sequence of body writes forwarded to the client. -/
structure UnderlyingWriter where
  statusWritten : Option Nat
  bodyWrites : List (List Byte)
deriving Repr, DecidableEq

/-- Semantics of `WriteHeader` in `net/http`: the first call fixes the status,
later calls are ignored. -/
def UnderlyingWriter.writeHeader (w : UnderlyingWriter) (code : Nat) : UnderlyingWriter :=
  match w.statusWritten with
  | none => { w with statusWritten := some code }
  | some _ => w

/-- Semantics of `Write` in `net/http`: an implicit `WriteHeader(200)` if no
status was set yet, then the data is sent to the client. -/
def UnderlyingWriter.write (w : UnderlyingWriter) (data : List Byte) : UnderlyingWriter :=
  let w1 := w.writeHeader 200
  { w1 with bodyWrites := w1.bodyWrites ++ [data] }

/-- Total number of body bytes the client received. -/
def UnderlyingWriter.totalBytes (w : UnderlyingWriter) : Int :=
  (w.bodyWrites.map List.length).sum

/-- A fresh underlying writer, before anything was sent. -/
def UnderlyingWriter.empty : UnderlyingWriter := { statusWritten := none, bodyWrites := [] }

/-- src/main.go lines 92-96: `type responseWriter struct` embedding
`http.ResponseWriter` with `status int` and `size int64` fields.
The Go type declares no methods of its own. -/
structure responseWriter where
  underlying : UnderlyingWriter
  status : Int
  size : Int
deriving Repr, DecidableEq

/-- The `WriteHeader` method selected on `*responseWriter`: since the struct
declares no `WriteHeader` of its own, Go method promotion dispatches to the
embedded `http.ResponseWriter`, which cannot touch `status` or `size`. -/
def responseWriter.WriteHeader (w : responseWriter) (code : Nat) : responseWriter :=
  { w with underlying := w.underlying.writeHeader code }

/-- The `Write` method selected on `*responseWriter`: promoted from the
embedded `http.ResponseWriter`; it forwards the data and cannot touch
`status` or `size`. -/
def responseWriter.Write (w : responseWriter) (data : List Byte) : responseWriter :=
  { w with underlying := w.underlying.write data }

/-- One call the inner handler makes on the response writer it was given. -/
inductive WriterCall where
  | writeHeader (code : Nat)
  | write (data : List Byte)
deriving Repr, DecidableEq

/-- An inner handler, abstracted as the sequence of response-writer calls it
performs for a given request. -/
abbrev Handler := Request → List WriterCall

/-- Dispatch one handler call on the wrapper (Go dynamic dispatch on the
`http.ResponseWriter` interface value holding the `*responseWriter`). -/
def responseWriter.applyCall (w : responseWriter) (c : WriterCall) : responseWriter :=
  match c with
  | .writeHeader code => w.WriteHeader code
  | .write data => w.Write data

/-- Run the inner handler's calls on the wrapper, in order. -/
def responseWriter.run (w : responseWriter) (calls : List WriterCall) : responseWriter :=
  calls.foldl responseWriter.applyCall w

/-- The structured record emitted by `logger.Info("HTTP Request", ...)`
(src/main.go lines 111-119). -/
structure LogRecord where
  msg : String
  method : String
  path : String
  status : Int
  remoteAddr : String
  userAgent : String
  duration : Int
  bytes : Int
deriving Repr, DecidableEq

/-- src/main.go lines 98-121, `RequestLogger`: record the start instant,
build a fresh wrapper around the real writer with `status: 0` (and zero
`size`), run the inner handler with the wrapper, measure the elapsed
duration, and emit one log record from the request and the wrapper's
fields.  `start` and `finish` are monotonic-clock readings in nanoseconds;
`time.Since start = finish - start`.  Returns the final wrapper state and
the emitted record. -/
def RequestLogger (next : Handler) (w : UnderlyingWriter) (r : Request)
    (start finish : Int) : responseWriter × LogRecord :=
  let wrapper0 : responseWriter := { underlying := w, status := 0, size := 0 }
  let wrapper := wrapper0.run (next r)
  let duration := finish - start
  (wrapper,
   { msg := "HTTP Request"
     method := r.method
     path := r.urlPath
     status := wrapper.status
     remoteAddr := r.remoteAddr
     userAgent := r.userAgent
     duration := duration
     bytes := wrapper.size })

/-- Observable events of one pass through the middleware. -/
inductive Event where
  | handlerCall (c : WriterCall)
  | logEmit (rec : LogRecord)
deriving Repr, DecidableEq

/-- Whether an event is a log emission. -/
def Event.isLogEmit : Event → Bool
  | .logEmit _ => true
  | _ => false

/-- The ordered event trace of one request through `RequestLogger`: the
inner handler's calls happen during `next.ServeHTTP(wrapper, r)` and the
single log emission happens after it returns. -/
def RequestLoggerTrace (next : Handler) (w : UnderlyingWriter) (r : Request)
    (start finish : Int) : List Event :=
  (next r).map Event.handlerCall ++
    [Event.logEmit (RequestLogger next w r start finish).2]

/-- Sum of the sizes of the write calls a handler makes (the number of body
bytes it writes through the wrapper). -/
def totalWriteSize (calls : List WriterCall) : Int :=
  (calls.map fun c => match c with
    | .writeHeader _ => (0 : Int)
    | .write data => (data.length : Int)).sum

/-- The first status code a sequence of handler calls sets explicitly. -/
def firstStatusSet (calls : List WriterCall) : Option Nat :=
  match calls with
  | [] => none
  | .writeHeader code :: _ => some code
  | .write _ :: rest => firstStatusSet rest

/-- A sample request used for concrete evaluations. -/
def sampleRequest : Request :=
  { method := "GET", urlPath := "/index.html"
    remoteAddr := "127.0.0.1:50000", userAgent := "curl/8.5.0" }

/-- A handler that sets status 200 and writes the five bytes of "hello". -/
def helloHandler : Handler :=
  fun _ => [.writeHeader 200, .write [104, 101, 108, 108, 111]]

/-- One nanosecond-denominated second, `time.Second`. -/
def second : Int := 1000000000

/-- src/main.go lines 14-20: the `Config` struct. Durations are in
nanoseconds (`time.Duration`). -/
structure Config where
  Port : String
  StaticDir : String
  ReadTimeout : Int
  WriteTimeout : Int
  MaxHeaderBytes : Int
deriving Repr, DecidableEq

/-- src/main.go lines 72-90, `loadConfig`: `os.Getenv` is modelled as a
total map from variable name to value, where the empty string stands for
unset (exactly what `os.Getenv` returns for an unset variable). -/
def loadConfig (env : String → String) : Config :=
  let port := if env "PORT" = "" then "8080" else env "PORT"
  let staticDir := if env "STATIC_DIR" = "" then "./static" else env "STATIC_DIR"
  { Port := port
    StaticDir := staticDir
    ReadTimeout := 10 * second
    WriteTimeout := 10 * second
    MaxHeaderBytes := 1 <<< 20 }

/-- Outcome of `srv.ListenAndServe()` in the serving goroutine
(src/main.go lines 50-53): it returns `http.ErrServerClosed` after
`Shutdown` is called, or some other error if it fails to listen/serve. -/
inductive ListenResult where
  | errServerClosed
  | listenError (e : String)
deriving Repr, DecidableEq

/-- Outcome of `srv.Shutdown(ctx)` (src/main.go line 65): `nil` when all
in-flight requests drained before the deadline, or the context error when
the 5-second deadline elapsed first. -/
inductive ShutdownResult where
  | drained
  | deadlineExceeded
deriving Repr, DecidableEq

/-- src/main.go lines 50-53: the serving goroutine calls `os.Exit(1)` only
when `ListenAndServe` returns an error other than `http.ErrServerClosed`;
otherwise it just returns and the process keeps running. -/
def serveGoroutineExit : ListenResult → Option Nat
  | .errServerClosed => none
  | .listenError _ => some 1

/-- The process exit code as a function of the listen outcome and the
shutdown outcome: if the goroutine called `os.Exit(1)` that is the exit
code; otherwise main logs the shutdown outcome (lines 65-69) and returns
normally, so the process exits 0. -/
def mainExitCode (lr : ListenResult) (sr : ShutdownResult) : Nat :=
  match serveGoroutineExit lr with
  | some c => c
  | none =>
    match sr with
    | .drained => 0
    | .deadlineExceeded => 0

/-- The lifecycle log lines main emits after `Shutdown` returns
(src/main.go lines 65-69): the forced-shutdown error line appears only
when the deadline was exceeded, and "Server exited properly" always
follows. -/
def shutdownLogs : ShutdownResult → List String
  | .drained => ["Server exited properly"]
  | .deadlineExceeded => ["Server forced to shutdown", "Server exited properly"]

/-- The two OS signals registered with `signal.Notify` (src/main.go
line 57): `os.Interrupt` (SIGINT) and `syscall.SIGTERM`. -/
inductive Signal where
  | sigint
  | sigterm
deriving Repr, DecidableEq

/-- The name `sig.String()` renders for each of the two registered signals. -/
def Signal.str : Signal → String
  | .sigint => "interrupt"
  | .sigterm => "terminated"

/-- The signals on which the `quit` channel delivers (src/main.go
lines 56-57). -/
def notifiedSignals : List Signal := [Signal.sigint, Signal.sigterm]

/-- What main does from the moment a signal arrives (src/main.go
lines 59-69): the log line announcing shutdown (whose only dependence on
the signal is its name), the shutdown deadline, and the remaining
transitions, as a function of the shutdown outcome. -/
structure ShutdownSequence where
  announceMsg : String
  announceSignal : String
  deadline : Int
  laterLogs : List String
  exitCode : Nat
deriving Repr, DecidableEq

/-- src/main.go lines 59-69 for a given received signal and shutdown
outcome (with the serving goroutine having stopped via `ErrServerClosed`,
as `Shutdown` causes). -/
def afterSignal (sig : Signal) (sr : ShutdownResult) : ShutdownSequence :=
  { announceMsg := "Server is shutting down..."
    announceSignal := sig.str
    deadline := 5 * second
    laterLogs := shutdownLogs sr
    exitCode := mainExitCode ListenResult.errServerClosed sr }

/-- The lifecycle phases of the server instance (spec section 4.2). -/
inductive Phase where
  | initial
  | running
  | shuttingDown
  | stopped
deriving Repr, DecidableEq

/-- The server object constructed at src/main.go lines 37-43 from the
configuration. -/
structure ServerInstance where
  Addr : String
  ReadTimeout : Int
  WriteTimeout : Int
  MaxHeaderBytes : Int
deriving Repr, DecidableEq

/-- The state main threads through its lifecycle: the configuration value
returned by `loadConfig`, the constructed server (none before line 37),
and the lifecycle phase. -/
structure MainState where
  cfg : Config
  srv : Option ServerInstance
  phase : Phase
deriving Repr, DecidableEq

/-- src/main.go lines 28, 37-43: resolve configuration and construct the
server from it. Reads `cfg`, writes only `srv`. -/
def constructServer (s : MainState) : MainState :=
  let srv : ServerInstance :=
    { Addr := ":" ++ s.cfg.Port
      ReadTimeout := s.cfg.ReadTimeout
      WriteTimeout := s.cfg.WriteTimeout
      MaxHeaderBytes := s.cfg.MaxHeaderBytes }
  { s with srv := some srv }

/-- src/main.go lines 45-54: the goroutine starts serving. Writes only the
phase. -/
def startServing (s : MainState) : MainState :=
  { s with phase := Phase.running }

/-- src/main.go lines 59-62: a signal is received and shutdown begins.
Writes only the phase. -/
def beginShutdown (s : MainState) : MainState :=
  { s with phase := Phase.shuttingDown }

/-- src/main.go lines 65-69: shutdown completes (drained or forced) and
main returns. Writes only the phase. -/
def finishShutdown (s : MainState) : MainState :=
  { s with phase := Phase.stopped }

/-- The sequence of states main passes through for a given environment:
initial state after `loadConfig`, then construction, serving, shutdown
initiation, and termination. -/
def mainTrace (env : String → String) : List MainState :=
  let s0 : MainState := { cfg := loadConfig env, srv := none, phase := Phase.initial }
  let s1 := constructServer s0
  let s2 := startServing s1
  let s3 := beginShutdown s2
  let s4 := finishShutdown s3
  [s0, s1, s2, s3, s4]

/-- Modelled from the spec: the Static Responder (`http.FileServer` at
src/main.go line 32 is a standard-library collaborator whose code is not
in this repository). Given the read-only filesystem under the static root
(a map from request path to file contents, none when absent), it serves
the file with status 200, or replies 404 with the standard not-found body,
applying standard file-serving conventions. -/
def staticResponder (fs : String → Option (List Byte)) : Handler :=
  fun r =>
    match fs r.urlPath with
    | some contents => [WriterCall.writeHeader 200, WriterCall.write contents]
    | none =>
      [WriterCall.writeHeader 404,
       WriterCall.write [52, 48, 52, 32, 112, 97, 103, 101, 32, 110, 111, 116,
                         32, 102, 111, 117, 110, 100, 10]]

/-- What the client observes from one response: the status line sent
(200 implicitly if the handler only wrote) and the total body bytes. -/
def clientView (w : UnderlyingWriter) : Option Nat × Int :=
  (w.statusWritten, w.totalBytes)

/-- The server's per-request handling, with its state: the filesystem root
is read-only (spec section 5), so handling a request returns the response
the client observes together with the unchanged server state. -/
def handleRequest (fs : String → Option (List Byte)) (r : Request) :
    (Option Nat × Int) × (String → Option (List Byte)) :=
  let wrapper := (RequestLogger (staticResponder fs) UnderlyingWriter.empty r 0 0).1
  (clientView wrapper.underlying, fs)

/-- Neither promoted method can change the wrapper's status field. -/
theorem responseWriter.applyCall_status (w : responseWriter) (c : WriterCall) :
    (w.applyCall c).status = w.status := by
  cases c <;> rfl

/-- Neither promoted method can change the wrapper's size field. -/
theorem responseWriter.applyCall_size (w : responseWriter) (c : WriterCall) :
    (w.applyCall c).size = w.size := by
  cases c <;> rfl

/-- Running any sequence of handler calls leaves the status field as it
was initialised. -/
theorem responseWriter.run_status (calls : List WriterCall) (w : responseWriter) :
    (w.run calls).status = w.status := by
  induction calls generalizing w with
  | nil => rfl
  | cons c cs ih =>
    show ((w.applyCall c).run cs).status = w.status
    rw [ih, responseWriter.applyCall_status]

/-- Running any sequence of handler calls leaves the size field as it was
initialised. -/
theorem responseWriter.run_size (calls : List WriterCall) (w : responseWriter) :
    (w.run calls).size = w.size := by
  induction calls generalizing w with
  | nil => rfl
  | cons c cs ih =>
    show ((w.applyCall c).run cs).size = w.size
    rw [ih, responseWriter.applyCall_size]

/-- Handler-call events are never log emissions. -/
theorem filter_logEmit_map_handlerCall (l : List WriterCall) :
    (l.map Event.handlerCall).filter Event.isLogEmit = [] := by
  induction l with
  | nil => rfl
  | cons c cs ih => simp [Event.isLogEmit, ih]

/-- Claim C10: for every inbound request, whatever status codes or body the
inner handler writes through the wrapper, the emitted log record has
status 0 and bytes 0, because the wrapper only forwards the promoted
WriteHeader and Write of the embedded ResponseWriter and never updates its
own status or size fields. -/
theorem C10_log_status_and_bytes_always_zero (next : Handler)
    (w : UnderlyingWriter) (r : Request) (start finish : Int) :
    (RequestLogger next w r start finish).2.status = 0 ∧
    (RequestLogger next w r start finish).2.bytes = 0 := by
  unfold RequestLogger
  exact ⟨responseWriter.run_status (next r) _, responseWriter.run_size (next r) _⟩

/-- Claim C1 at a failing input: a handler that writes the five body bytes
of "hello" through the wrapper.  The sum of its write calls' sizes is 5
and the client indeed receives 5 bytes, yet the log record's bytes field
is 0, refuting the claim that it equals the total written. -/
theorem C1_bytes_not_captured :
    totalWriteSize (helloHandler sampleRequest) = 5 ∧
    (RequestLogger helloHandler UnderlyingWriter.empty sampleRequest 0
        (3 * second)).1.underlying.totalBytes = 5 ∧
    (RequestLogger helloHandler UnderlyingWriter.empty sampleRequest 0
        (3 * second)).2.bytes = 0 := by
  refine ⟨rfl, rfl, rfl⟩

/-- Claim C2 at a failing input: the same handler explicitly sets status
200 as its first call, yet the wrapper's recorded status — and hence the
log record's status field — is 0, refuting the claim that the wrapper
records the first status code the inner handler sets. -/
theorem C2_status_not_captured :
    firstStatusSet (helloHandler sampleRequest) = some 200 ∧
    (RequestLogger helloHandler UnderlyingWriter.empty sampleRequest 0
        (3 * second)).1.underlying.statusWritten = some 200 ∧
    (RequestLogger helloHandler UnderlyingWriter.empty sampleRequest 0
        (3 * second)).2.status = 0 := by
  refine ⟨rfl, rfl, rfl⟩

/-- Claim C3: for every request, whatever the inner handler does, the
middleware's event trace contains exactly one log emission, and that
record's method and path fields equal the request's actual method and URL
path. -/
theorem C3_exactly_one_log_with_method_and_path (next : Handler)
    (w : UnderlyingWriter) (r : Request) (start finish : Int) :
    ∃ rec : LogRecord,
      (RequestLoggerTrace next w r start finish).filter Event.isLogEmit
        = [Event.logEmit rec] ∧
      rec.method = r.method ∧ rec.path = r.urlPath := by
  refine ⟨(RequestLogger next w r start finish).2, ?_, rfl, rfl⟩
  unfold RequestLoggerTrace
  rw [List.filter_append, filter_logEmit_map_handlerCall]
  rfl

/-- Claim C4: the process exits 0 after graceful shutdown whether shutdown
drained cleanly or the deadline was exceeded (the forced shutdown is
logged, not escalated), and exits 1 when the server fails to listen for a
reason other than intentional shutdown. -/
theorem C4_exit_codes (sr : ShutdownResult) (e : String) :
    mainExitCode ListenResult.errServerClosed sr = 0 ∧
    mainExitCode (ListenResult.listenError e) sr = 1 ∧
    "Server forced to shutdown" ∈ shutdownLogs ShutdownResult.deadlineExceeded ∧
    "Server forced to shutdown" ∉ shutdownLogs ShutdownResult.drained := by
  refine ⟨?_, rfl, ?_, ?_⟩
  · cases sr <;> rfl
  · simp [shutdownLogs]
  · simp [shutdownLogs]

/-- Claim C5: loadConfig yields port 8080 when PORT is unset and static
root ./static when STATIC_DIR is unset, uses a set value verbatim, and
fixes read timeout 10s, write timeout 10s and a 1 MiB header limit. -/
theorem C5_loadConfig_spec (env : String → String) :
    (env "PORT" = "" → (loadConfig env).Port = "8080") ∧
    (env "PORT" ≠ "" → (loadConfig env).Port = env "PORT") ∧
    (env "STATIC_DIR" = "" → (loadConfig env).StaticDir = "./static") ∧
    (env "STATIC_DIR" ≠ "" → (loadConfig env).StaticDir = env "STATIC_DIR") ∧
    (loadConfig env).ReadTimeout = 10 * second ∧
    (loadConfig env).WriteTimeout = 10 * second ∧
    (loadConfig env).MaxHeaderBytes = 1 <<< 20 := by
  unfold loadConfig
  refine ⟨?_, ?_, ?_, ?_, rfl, rfl, rfl⟩ <;> intro h <;> simp [h]

/-- Concrete instances of the configuration claim: defaults with an empty
environment, verbatim values when PORT or STATIC_DIR is set. -/
theorem C5_loadConfig_witness :
    (loadConfig fun _ => "").Port = "8080" ∧
    (loadConfig fun v => if v = "PORT" then "9090" else "").Port = "9090" ∧
    (loadConfig fun _ => "").StaticDir = "./static" ∧
    (loadConfig fun v => if v = "STATIC_DIR" then "/srv" else "").StaticDir = "/srv" := by
  refine ⟨(C5_loadConfig_spec _).1 rfl, ?_, (C5_loadConfig_spec _).2.2.1 rfl, ?_⟩
  · exact (C5_loadConfig_spec _).2.1 (by decide)
  · exact (C5_loadConfig_spec _).2.2.2.1 (by decide)

/-- Claim C6: the log emission is the last event of the trace, after every
handler call; the record carries this request's own fields; and given that
the monotonic clock does not go backwards, the logged duration equals
finish minus start and is non-negative. -/
theorem C6_log_after_handler_with_duration (next : Handler)
    (w : UnderlyingWriter) (r : Request) (start finish : Int)
    (h : start ≤ finish) :
    ∃ rec : LogRecord,
      RequestLoggerTrace next w r start finish
        = (next r).map Event.handlerCall ++ [Event.logEmit rec] ∧
      rec.duration = finish - start ∧
      0 ≤ rec.duration ∧
      rec.method = r.method ∧ rec.path = r.urlPath ∧
      rec.remoteAddr = r.remoteAddr ∧ rec.userAgent = r.userAgent := by
  refine ⟨(RequestLogger next w r start finish).2, rfl, rfl, ?_, rfl, rfl, rfl, rfl⟩
  show (0 : Int) ≤ finish - start
  omega

/-- Concrete instance of the temporal claim with start 0 and finish three
seconds later. -/
theorem C6_duration_witness :
    ∃ rec : LogRecord,
      RequestLoggerTrace helloHandler UnderlyingWriter.empty sampleRequest 0 (3 * second)
        = (helloHandler sampleRequest).map Event.handlerCall ++ [Event.logEmit rec] ∧
      rec.duration = 3 * second - 0 ∧
      0 ≤ rec.duration ∧
      rec.method = sampleRequest.method ∧ rec.path = sampleRequest.urlPath ∧
      rec.remoteAddr = sampleRequest.remoteAddr ∧
      rec.userAgent = sampleRequest.userAgent :=
  C6_log_after_handler_with_duration helloHandler UnderlyingWriter.empty
    sampleRequest 0 (3 * second) (by decide)

/-- Claim C7: both SIGINT and SIGTERM are registered, and the behaviour
after the signal arrives is identical for the two: same announcement
message, the signal name is what is logged, the deadline is fixed at five
seconds, and the later log lines and exit code do not depend on which
signal arrived. -/
theorem C7_sigint_sigterm_identical (sr : ShutdownResult) :
    Signal.sigint ∈ notifiedSignals ∧ Signal.sigterm ∈ notifiedSignals ∧
    (afterSignal Signal.sigint sr).announceMsg
      = (afterSignal Signal.sigterm sr).announceMsg ∧
    (afterSignal Signal.sigint sr).announceSignal = Signal.str Signal.sigint ∧
    (afterSignal Signal.sigterm sr).announceSignal = Signal.str Signal.sigterm ∧
    (afterSignal Signal.sigint sr).deadline = 5 * second ∧
    (afterSignal Signal.sigterm sr).deadline = 5 * second ∧
    (afterSignal Signal.sigint sr).laterLogs
      = (afterSignal Signal.sigterm sr).laterLogs ∧
    (afterSignal Signal.sigint sr).exitCode
      = (afterSignal Signal.sigterm sr).exitCode := by
  refine ⟨?_, ?_, rfl, rfl, rfl, rfl, rfl, rfl, rfl⟩ <;> simp [notifiedSignals]

/-- Claim C8: in every state main passes through — initial, after server
construction, while serving, during and after shutdown — the configuration
component equals exactly what loadConfig returned: no step mutates it. -/
theorem C8_config_never_mutated (env : String → String) (s : MainState)
    (hs : s ∈ mainTrace env) : s.cfg = loadConfig env := by
  simp only [mainTrace, List.mem_cons, List.not_mem_nil, or_false] at hs
  rcases hs with h | h | h | h | h <;> subst h <;> rfl

/-- Concrete instance of configuration immutability at the initial state of
the trace for the empty environment. -/
theorem C8_config_witness :
    ({ cfg := loadConfig fun _ => "", srv := none, phase := Phase.initial } : MainState).cfg
      = loadConfig fun _ => "" :=
  C8_config_never_mutated (fun _ => "") _ (by simp [mainTrace])

/-- Claim C9: issuing the identical GET request for the same static path
twice, with no filesystem change between, yields the same response status
and byte count both times; handling a request leaves the read-only
filesystem untouched. -/
theorem C9_get_idempotent (fs : String → Option (List Byte)) (r : Request) :
    (handleRequest (handleRequest fs r).2 r).1 = (handleRequest fs r).1 ∧
    (handleRequest fs r).2 = fs :=
  ⟨rfl, rfl⟩
